import Mathlib

/-!
Verification of the profile-completion and validation engine of the
safeboda passenger-profile service (src/users).

Data model (src/users/models.py): a User identity with email, names,
phone number and a user type, and a Passenger profile owned 1:1 by a
User, carrying addresses, emergency-contact fields, preferences and the
two status flags is_phone_verified and is_profile_complete.

Python string truthiness (`if s:`) is modelled by non-emptiness of the
string; optional dictionary entries (`data.get(k)`) are modelled by
`Option String`, where `none` and `some ""` are both falsy, as in
Python. Python `int(c / 6 * 100)` truncates a float towards zero; for
every reachable count c in 0..6 the truncated float value coincides
with natural-number division `c * 100 / 6` (values 0, 16, 33, 50, 66,
83, 100), which is how it is embedded. Errors raised with
`serializers.ValidationError` are modelled as `Except.error` carrying
the message string.
-/

/-- Python truthiness of a string: non-empty strings are truthy. -/
def pyStr (s : String) : Bool := !s.isEmpty

/-- Python truthiness of an optional string (`data.get(k)`):
`None` and the empty string are falsy. -/
def pyOptStr : Option String → Bool
  | none => false
  | some s => !s.isEmpty

/-- Python `s.strip()`: drop leading and trailing whitespace. Defined
over the character list so that it evaluates by kernel reduction. -/
def pyStrip (s : String) : String :=
  ⟨((s.data.dropWhile Char.isWhitespace).reverse.dropWhile Char.isWhitespace).reverse⟩

/-- Python `s.startswith(pre)`. Defined over the character lists so
that it evaluates by kernel reduction. -/
def pyStartsWith (s pre : String) : Bool :=
  pre.data.isPrefixOf s.data

/-- Python `s.split(sep)[0]` for a one-character separator: the part of
the string before the first occurrence of the separator (the whole
string when the separator does not occur). -/
def pySplitHead (s : String) (sep : Char) : String :=
  ⟨s.data.takeWhile (fun c => c ≠ sep)⟩

/-- Identity record, from the custom `User` model in src/users/models.py.
Only the projection read by the core is embedded. -/
structure User where
  email : String
  first_name : String
  last_name : String
  phone_number : String
  user_type : String
deriving DecidableEq, Repr

/-- Passenger profile record, from the `Passenger` model in
src/users/models.py, restricted to the fields the core reads or writes. -/
structure Passenger where
  user : User
  home_address : String
  work_address : String
  emergency_contact_name : String
  emergency_contact_phone : String
  preferred_payment_method : String
  preferred_car_type : String
  is_phone_verified : Bool
  is_profile_complete : Bool
deriving DecidableEq, Repr

/-- `PassengerSerializer.get_full_name` (src/users/serializers.py, lines
86-92): the space-joined names, stripped, when both names are truthy,
else the part of the email before the first at-sign
(`email.split(chr 64)[0]`). -/
def get_full_name (obj : Passenger) : String :=
  if pyStr obj.user.first_name && pyStr obj.user.last_name then
    pyStrip (obj.user.first_name ++ " " ++ obj.user.last_name)
  else
    pySplitHead obj.user.email '@'

/-- `PassengerSerializer.get_profile_completion_percentage`
(src/users/serializers.py, lines 94-118): count six presence predicates
and return `int(completed_fields / total_fields * 100)`. -/
def get_profile_completion_percentage (obj : Passenger) : Nat :=
  let total_fields : Nat := 6
  let completed_fields : Nat := 0
  let completed_fields :=
    if pyStr obj.user.first_name then completed_fields + 1 else completed_fields
  let completed_fields :=
    if pyStr obj.user.last_name then completed_fields + 1 else completed_fields
  let completed_fields :=
    if pyStr obj.user.phone_number && obj.is_phone_verified then
      completed_fields + 1 else completed_fields
  let completed_fields :=
    if pyStr obj.home_address then completed_fields + 1 else completed_fields
  let completed_fields :=
    if pyStr obj.emergency_contact_name then completed_fields + 1 else completed_fields
  let completed_fields :=
    if pyStr obj.emergency_contact_phone then completed_fields + 1 else completed_fields
  if total_fields > 0 then completed_fields * 100 / total_fields else 0

/-- `PassengerStatsView._calculate_completion_percentage`
(src/users/views.py, lines 173-193): the statistics endpoint has its own
copy of the percentage computation (no zero guard on the divisor). -/
def calculate_completion_percentage (passenger : Passenger) : Nat :=
  let total_fields : Nat := 6
  let completed_fields : Nat := 0
  let completed_fields :=
    if pyStr passenger.user.first_name then completed_fields + 1 else completed_fields
  let completed_fields :=
    if pyStr passenger.user.last_name then completed_fields + 1 else completed_fields
  let completed_fields :=
    if pyStr passenger.user.phone_number && passenger.is_phone_verified then
      completed_fields + 1 else completed_fields
  let completed_fields :=
    if pyStr passenger.home_address then completed_fields + 1 else completed_fields
  let completed_fields :=
    if pyStr passenger.emergency_contact_name then completed_fields + 1 else completed_fields
  let completed_fields :=
    if pyStr passenger.emergency_contact_phone then completed_fields + 1 else completed_fields
  completed_fields * 100 / total_fields

/-- Specification-side count of the six presence predicates of section 4.1
of the spec, used to state the claims about the percentage. -/
def countTruePredicates (p : Passenger) : Nat :=
  (cond (pyStr p.user.first_name) 1 0) +
  (cond (pyStr p.user.last_name) 1 0) +
  (cond (pyStr p.user.phone_number && p.is_phone_verified) 1 0) +
  (cond (pyStr p.home_address) 1 0) +
  (cond (pyStr p.emergency_contact_name) 1 0) +
  (cond (pyStr p.emergency_contact_phone) 1 0)

/-- `PassengerCreateSerializer._calculate_profile_completion`
(src/users/serializers.py, lines 183-197): the profile is complete when
all of the listed fields are truthy. -/
def calculate_profile_completion (passenger : Passenger) : Bool :=
  let required_fields : List Bool := [
    pyStr passenger.user.first_name,
    pyStr passenger.user.last_name,
    pyStr passenger.home_address,
    pyStr passenger.emergency_contact_name,
    pyStr passenger.emergency_contact_phone,
    passenger.is_phone_verified
  ]
  required_fields.all id

/-- `PassengerDetailView.perform_update` (src/users/views.py, lines
111-128): after a save, recompute `is_profile_complete` from the saved
fields and store it back. The argument is the passenger as saved by the
serializer; the result is the record at rest after the view ran. -/
def perform_update (passenger : Passenger) : Passenger :=
  let completion_fields : List Bool := [
    pyStr passenger.user.first_name,
    pyStr passenger.user.last_name,
    pyStr passenger.home_address,
    pyStr passenger.emergency_contact_name,
    pyStr passenger.emergency_contact_phone,
    passenger.is_phone_verified
  ]
  { passenger with is_profile_complete := completion_fields.all id }

/-- `PassengerSerializer.validate_emergency_contact_phone`
(src/users/serializers.py, lines 120-126). The source message is
"Emergency contact phone must start with '+'." (quotes elided here). -/
def validate_emergency_contact_phone (value : String) : Except String String :=
  if pyStr value && !(pyStartsWith value "+") then
    Except.error "Emergency contact phone must start with +."
  else
    Except.ok value

/-- The candidate fields read by `PassengerSerializer.validate`:
`data.get` of the two emergency-contact keys, absent keys being `none`. -/
structure ValidateData where
  emergency_contact_name : Option String
  emergency_contact_phone : Option String
deriving DecidableEq, Repr

/-- `PassengerSerializer.validate` (src/users/serializers.py, lines
128-142): when the emergency contact name is truthy and the phone is
not, reject; otherwise return the data unchanged. -/
def validate (data : ValidateData) : Except String ValidateData :=
  let emergency_name := data.emergency_contact_name
  let emergency_phone := data.emergency_contact_phone
  if pyOptStr emergency_name && !(pyOptStr emergency_phone) then
    Except.error "Phone number is required when emergency contact name is provided."
  else
    Except.ok data

/-- The validated fields of `PassengerCreateSerializer.Meta.fields`
(src/users/serializers.py, lines 151-160). -/
structure CreateData where
  home_address : String
  work_address : String
  emergency_contact_name : String
  emergency_contact_phone : String
  preferred_payment_method : String
  preferred_car_type : String
deriving DecidableEq, Repr

/-- `Passenger.objects.create(user=user, **validated_data)`: a fresh row
with the model defaults `is_phone_verified = False` and
`is_profile_complete = False` (src/users/models.py, lines 134-136). -/
def Passenger.objects_create (user : User) (d : CreateData) : Passenger :=
  { user := user
    home_address := d.home_address
    work_address := d.work_address
    emergency_contact_name := d.emergency_contact_name
    emergency_contact_phone := d.emergency_contact_phone
    preferred_payment_method := d.preferred_payment_method
    preferred_car_type := d.preferred_car_type
    is_phone_verified := false
    is_profile_complete := false }

/-- `PassengerCreateSerializer.create` (src/users/serializers.py, lines
162-181), together with the storage it writes to: reject non-passenger
identities before anything is written; otherwise create the row, set
`is_profile_complete` from `_calculate_profile_completion`, save, and
return the new store and the created record. The source message is
"Only users with type 'passenger' can create passenger profiles."
(quotes elided here). -/
def createRequest (store : List Passenger) (user : User) (validated_data : CreateData) :
    List Passenger × Except String Passenger :=
  if user.user_type ≠ "passenger" then
    (store, Except.error "Only users with type passenger can create passenger profiles.")
  else
    let passenger := Passenger.objects_create user validated_data
    let passenger :=
      { passenger with is_profile_complete := calculate_profile_completion passenger }
    (store ++ [passenger], Except.ok passenger)

/-- Truthiness of a string is non-emptiness. -/
lemma pyStr_eq_true {s : String} : pyStr s = true ↔ s ≠ "" := by
  constructor
  · intro h hs
    subst hs
    exact absurd h (by decide)
  · intro h
    cases hh : s.isEmpty
    · simp [pyStr, hh]
    · exact absurd ((String.isEmpty_iff s).mp hh) h

/-- `countTruePredicates` never exceeds the number of predicates. -/
lemma countTruePredicates_le (p : Passenger) : countTruePredicates p ≤ 6 := by
  unfold countTruePredicates
  cases pyStr p.user.first_name <;>
    cases pyStr p.user.last_name <;>
      cases pyStr p.user.phone_number && p.is_phone_verified <;>
        cases pyStr p.home_address <;>
          cases pyStr p.emergency_contact_name <;>
            cases pyStr p.emergency_contact_phone <;> simp

/-- C1: for every profile, the serializer percentage equals
floor(countTrue(predicates) * 100 / 6) over the six presence predicates,
is at most 100, and lies in {0, 16, 33, 50, 66, 83, 100}: integer
truncation, not rounding. -/
theorem c1_percentage_floor_range (p : Passenger) :
    get_profile_completion_percentage p = countTruePredicates p * 100 / 6 ∧
    get_profile_completion_percentage p ≤ 100 ∧
    get_profile_completion_percentage p ∈ ([0, 16, 33, 50, 66, 83, 100] : List Nat) := by
  simp only [get_profile_completion_percentage, countTruePredicates]
  generalize pyStr p.user.first_name = a
  generalize pyStr p.user.last_name = b
  generalize (pyStr p.user.phone_number && p.is_phone_verified) = c
  generalize pyStr p.home_address = d
  generalize pyStr p.emergency_contact_name = e
  generalize pyStr p.emergency_contact_phone = f
  revert a b c d e f
  decide

/-- A concrete identity of type passenger, used to instantiate theorems. -/
def sampleUser : User :=
  { email := "ada@example.com"
    first_name := "Ada"
    last_name := "Lovelace"
    phone_number := "+250700000000"
    user_type := "passenger" }

/-- A concrete identity of type rider, used to instantiate theorems. -/
def riderUser : User :=
  { email := "bob@example.com"
    first_name := "Bob"
    last_name := "Marley"
    phone_number := "+250700000001"
    user_type := "rider" }

/-- A concrete passenger record, used to instantiate theorems. -/
def samplePassenger : Passenger :=
  { user := sampleUser
    home_address := "1 Main St"
    work_address := ""
    emergency_contact_name := "Jane"
    emergency_contact_phone := "+1234567890"
    preferred_payment_method := "card"
    preferred_car_type := "economy"
    is_phone_verified := true
    is_profile_complete := false }

/-- Concrete validated create data, used to instantiate theorems. -/
def sampleCreateData : CreateData :=
  { home_address := "1 Main St"
    work_address := ""
    emergency_contact_name := "Jane"
    emergency_contact_phone := "+1234567890"
    preferred_payment_method := "card"
    preferred_car_type := "economy" }

/-- The record the create path stores for `sampleUser` and
`sampleCreateData`. -/
def sampleCreated : Passenger :=
  { Passenger.objects_create sampleUser sampleCreateData with
    is_profile_complete :=
      calculate_profile_completion (Passenger.objects_create sampleUser sampleCreateData) }

/-- C2: the stored completeness boolean is true exactly when the first
name, last name, home address, emergency contact name and emergency
contact phone are non-empty and the phone is verified; the phone number
itself is not consulted by this rule. -/
theorem c2_is_complete_iff (p : Passenger) :
    calculate_profile_completion p = true ↔
      (p.user.first_name ≠ "" ∧ p.user.last_name ≠ "" ∧ p.home_address ≠ "" ∧
       p.emergency_contact_name ≠ "" ∧ p.emergency_contact_phone ≠ "" ∧
       p.is_phone_verified = true) := by
  simp [calculate_profile_completion, pyStr_eq_true]

/-- C3: two records that agree on the first name, last name, home
address, emergency contact name, emergency contact phone and the
verification flag get the same completeness boolean, both in the create
path helper and in the update view, whatever their phone numbers are. -/
theorem c3_is_complete_ignores_phone_number (p q : Passenger)
    (h1 : p.user.first_name = q.user.first_name)
    (h2 : p.user.last_name = q.user.last_name)
    (h3 : p.home_address = q.home_address)
    (h4 : p.emergency_contact_name = q.emergency_contact_name)
    (h5 : p.emergency_contact_phone = q.emergency_contact_phone)
    (h6 : p.is_phone_verified = q.is_phone_verified) :
    calculate_profile_completion p = calculate_profile_completion q ∧
    (perform_update p).is_profile_complete = (perform_update q).is_profile_complete := by
  unfold calculate_profile_completion perform_update
  rw [h1, h2, h3, h4, h5, h6]
  exact ⟨rfl, rfl⟩

/-- Witness for C3 at two concrete records that differ only in the
phone number. -/
theorem c3_witness :
    calculate_profile_completion samplePassenger =
      calculate_profile_completion
        { samplePassenger with user := { sampleUser with phone_number := "" } } ∧
    (perform_update samplePassenger).is_profile_complete =
      (perform_update
        { samplePassenger with user := { sampleUser with phone_number := "" } }).is_profile_complete :=
  c3_is_complete_ignores_phone_number _ _ rfl rfl rfl rfl rfl rfl

/-- C4: the percentage computed by the profile serializer and the
percentage computed by the statistics endpoint agree on every record. -/
theorem c4_percentage_implementations_agree (p : Passenger) :
    get_profile_completion_percentage p = calculate_completion_percentage p := rfl

/-- C5: whenever the create path succeeds, the record it stored carries
a completeness flag equal to the completeness rule evaluated on that
stored record, and the store gained exactly that record; and the record
at rest after the update view ran carries a completeness flag equal to
the completeness rule evaluated on it. -/
theorem c5_flag_never_stale_after_write (store : List Passenger) (u : User)
    (d : CreateData) (store2 : List Passenger) (p q : Passenger)
    (h : createRequest store u d = (store2, Except.ok p)) :
    p.is_profile_complete = calculate_profile_completion p ∧
    store2 = store ++ [p] ∧
    (perform_update q).is_profile_complete =
      calculate_profile_completion (perform_update q) := by
  unfold createRequest at h
  split at h
  · rw [Prod.mk.injEq] at h
    exact absurd h.2 (by simp)
  · rw [Prod.mk.injEq] at h
    obtain ⟨hs, hp⟩ := h
    rw [Except.ok.injEq] at hp
    subst hp
    exact ⟨rfl, hs.symm, rfl⟩

/-- Witness for C5 at a concrete create over the empty store and a
concrete update. -/
theorem c5_witness :
    sampleCreated.is_profile_complete = calculate_profile_completion sampleCreated ∧
    [sampleCreated] = [] ++ [sampleCreated] ∧
    (perform_update samplePassenger).is_profile_complete =
      calculate_profile_completion (perform_update samplePassenger) :=
  c5_flag_never_stale_after_write [] sampleUser sampleCreateData
    [sampleCreated] sampleCreated samplePassenger rfl

/-- C6: a non-empty emergency contact phone that does not start with a
plus sign is rejected by the field validator with the format error; in
particular "1234567" is rejected and "+1234567890" is accepted. -/
theorem c6_emergency_phone_format :
    (∀ v : String, v ≠ "" → pyStartsWith v "+" = false →
        validate_emergency_contact_phone v =
          Except.error "Emergency contact phone must start with +.") ∧
    validate_emergency_contact_phone "1234567" =
      Except.error "Emergency contact phone must start with +." ∧
    validate_emergency_contact_phone "+1234567890" = Except.ok "+1234567890" := by
  refine ⟨?_, rfl, rfl⟩
  intro v h1 h2
  simp [validate_emergency_contact_phone, pyStr_eq_true.mpr h1, h2]

/-- C7: a present, non-empty emergency contact name with an absent or
empty emergency contact phone is rejected by the cross-field validator;
the rule is one-directional, so both fields empty passes, while the pair
of name "Jane" and empty phone is rejected. -/
theorem c7_cross_field_rule :
    (∀ (d : ValidateData) (s : String),
        d.emergency_contact_name = some s → s ≠ "" →
        (d.emergency_contact_phone = none ∨ d.emergency_contact_phone = some "") →
        validate d = Except.error
          "Phone number is required when emergency contact name is provided.") ∧
    validate { emergency_contact_name := some "Jane", emergency_contact_phone := some "" } =
      Except.error "Phone number is required when emergency contact name is provided." ∧
    validate { emergency_contact_name := some "", emergency_contact_phone := some "" } =
      Except.ok { emergency_contact_name := some "", emergency_contact_phone := some "" } := by
  refine ⟨?_, rfl, rfl⟩
  intro d s hname hs hphone
  have hn : pyOptStr d.emergency_contact_name = true := by
    rw [hname]
    exact pyStr_eq_true.mpr hs
  have hp : pyOptStr d.emergency_contact_phone = false := by
    rcases hphone with h | h <;> rw [h] <;> rfl
  simp [validate, hn, hp]

/-- C8: creating a profile for an identity whose user type is not
passenger fails with the forbidden error and leaves the store unchanged:
nothing is written before the type check. -/
theorem c8_create_forbidden_for_non_passenger (store : List Passenger) (u : User)
    (d : CreateData) (h : u.user_type ≠ "passenger") :
    createRequest store u d =
      (store, Except.error "Only users with type passenger can create passenger profiles.") := by
  unfold createRequest
  rw [if_pos h]

/-- Witness for C8 at a rider identity over the empty store. -/
theorem c8_witness :
    createRequest [] riderUser sampleCreateData =
      ([], Except.error "Only users with type passenger can create passenger profiles.") :=
  c8_create_forbidden_for_non_passenger [] riderUser sampleCreateData (by decide)

/-- A record with every contributing field set and the phone verified
but the phone number itself empty: complete, yet only 83 percent. -/
def c9Sample : Passenger :=
  { user := { sampleUser with phone_number := "" }
    home_address := "1 Main St"
    work_address := ""
    emergency_contact_name := "Jane"
    emergency_contact_phone := "+1234567890"
    preferred_payment_method := "card"
    preferred_car_type := "economy"
    is_phone_verified := true
    is_profile_complete := false }

/-- C9: a percentage of 100 forces the completeness boolean to be true;
the converse fails: the concrete record `c9Sample`, with an empty phone
number but the five other fields set and the phone verified, is complete
while its percentage is 83. -/
theorem c9_percentage_100_implies_complete :
    (∀ p : Passenger, get_profile_completion_percentage p = 100 →
        calculate_profile_completion p = true) ∧
    calculate_profile_completion c9Sample = true ∧
    get_profile_completion_percentage c9Sample = 83 := by
  refine ⟨?_, by decide, by decide⟩
  intro p h
  revert h
  unfold get_profile_completion_percentage calculate_profile_completion
  generalize pyStr p.user.first_name = a
  generalize pyStr p.user.last_name = b
  generalize pyStr p.user.phone_number = c
  generalize p.is_phone_verified = v
  generalize pyStr p.home_address = d
  generalize pyStr p.emergency_contact_name = e
  generalize pyStr p.emergency_contact_phone = f
  revert a b c v d e f
  decide

/-- A record whose first name carries a leading space: both names are
non-empty, yet the serializer strips the join, so the reported full name
is not the plain space-join of the two names. -/
def c10Cex : Passenger :=
  { user := { email := "grace@example.com"
              first_name := " Grace"
              last_name := "Hopper"
              phone_number := "+15551234567"
              user_type := "passenger" }
    home_address := ""
    work_address := ""
    emergency_contact_name := ""
    emergency_contact_phone := ""
    preferred_payment_method := "card"
    preferred_car_type := "economy"
    is_phone_verified := false
    is_profile_complete := false }

/-- Counterexample to C10 as stated: on `c10Cex` both names are
non-empty, but the computed full name is the stripped join
"Grace Hopper", not the plain join " Grace Hopper". -/
theorem c10_counterexample :
    c10Cex.user.first_name ≠ "" ∧ c10Cex.user.last_name ≠ "" ∧
    get_full_name c10Cex = "Grace Hopper" ∧
    c10Cex.user.first_name ++ " " ++ c10Cex.user.last_name = " Grace Hopper" ∧
    get_full_name c10Cex ≠
      c10Cex.user.first_name ++ " " ++ c10Cex.user.last_name := by
  refine ⟨by decide, by decide, by decide, by decide, by decide⟩

/-- C10 amended: when both names are non-empty the full name is the
space-join of the two names with leading and trailing whitespace
stripped; otherwise it is the part of the owner email before the first
at-sign. -/
theorem c10_full_name_amended (p : Passenger) :
    get_full_name p =
      if p.user.first_name ≠ "" ∧ p.user.last_name ≠ "" then
        pyStrip (p.user.first_name ++ " " ++ p.user.last_name)
      else
        pySplitHead p.user.email '@' := by
  by_cases h : p.user.first_name ≠ "" ∧ p.user.last_name ≠ ""
  · have hb : (pyStr p.user.first_name && pyStr p.user.last_name) = true := by
      rw [Bool.and_eq_true]
      exact ⟨pyStr_eq_true.mpr h.1, pyStr_eq_true.mpr h.2⟩
    simp [get_full_name, hb, h]
  · have hb : (pyStr p.user.first_name && pyStr p.user.last_name) = false := by
      cases hab : (pyStr p.user.first_name && pyStr p.user.last_name)
      · rfl
      · rw [Bool.and_eq_true] at hab
        exact absurd ⟨pyStr_eq_true.mp hab.1, pyStr_eq_true.mp hab.2⟩ h
    simp [get_full_name, hb, h]
